import Mathlib

/-!
Verification development for the tech-radar submission tool.

The definitions below are a shallow embedding of the Python source:
`app/models.py`, `app/quality.py`, `app/radar_history.py`,
`app/sanitization.py` and `app/claude_client.py`.  Floats are modelled
as exact rationals (the arithmetic involved — integer sums and one
division by 140 — is exact in IEEE terms for the claims considered),
Python dicts of tool arguments as structures of optional JSON values,
exceptions as `Except Unit`, and the streaming orchestrator as a pure
function from the consumed stream events to the yielded events,
appended messages and updated record.
-/

namespace RadarTool

/-! ### Data model — src/app/models.py -/

/-- Enum `Quadrant` (models.py). -/
inductive Quadrant
  | techniques
  | tools
  | platforms
  | languagesFrameworks
deriving DecidableEq

/-- The `.value` of a `Quadrant` member (it is a `str` enum). -/
def Quadrant.value : Quadrant → String
  | .techniques => "Techniques"
  | .tools => "Tools"
  | .platforms => "Platforms"
  | .languagesFrameworks => "Languages & Frameworks"

/-- Enum `Ring` (models.py). -/
inductive Ring
  | adopt
  | trial
  | assess
  | hold
deriving DecidableEq

/-- The `.value` of a `Ring` member (it is a `str` enum). -/
def Ring.value : Ring → String
  | .adopt => "Adopt"
  | .trial => "Trial"
  | .assess => "Assess"
  | .hold => "Hold"

/-- Model of `HistoricalBlip` (models.py): one appearance of a technology in a
past radar volume. -/
structure HistoricalBlip where
  name : String
  ring : String
  quadrant : String
  volume : String
deriving DecidableEq

/-- Model of `BlipSubmission` (models.py): the mutable record built during the
conversation.  All fields default to the pydantic defaults. -/
structure BlipSubmission where
  name : Option String := Option.none
  quadrant : Option Quadrant := Option.none
  ring : Option Ring := Option.none
  description : Option String := Option.none
  client_references : Option (List String) := Option.none
  submitter_name : Option String := Option.none
  submitter_contact : Option String := Option.none
  why_now : Option String := Option.none
  alternatives_considered : Option (List String) := Option.none
  strengths : Option (List String) := Option.none
  weaknesses : Option (List String) := Option.none
  is_resubmission : Bool := false
  previous_appearances : Option (List HistoricalBlip) := Option.none
  resubmission_rationale : Option String := Option.none
  completeness_score : Option ℚ := Option.none
  quality_score : Option ℚ := Option.none
deriving DecidableEq

/-- A Python runtime value as seen by `getattr` in quality.py: either
`None`, a string (plain or a `str`-enum member), a list of strings, or
a boolean. -/
inductive PyValue
  | none
  | str (s : String)
  | list (l : List String)
  | bool (b : Bool)
deriving DecidableEq

def optStrVal : Option String → PyValue
  | Option.none => .none
  | some s => .str s

def optListVal : Option (List String) → PyValue
  | Option.none => .none
  | some l => .list l

/-- Model of `getattr(blip, field, None)` for the string field names used by
quality.py.  A `str`-enum member behaves as its `.value` string. -/
def BlipSubmission.pyGetattr (b : BlipSubmission) : String → PyValue
  | "name" => optStrVal b.name
  | "quadrant" =>
      match b.quadrant with
      | Option.none => .none
      | some q => .str q.value
  | "ring" =>
      match b.ring with
      | Option.none => .none
      | some r => .str r.value
  | "description" => optStrVal b.description
  | "client_references" => optListVal b.client_references
  | "submitter_name" => optStrVal b.submitter_name
  | "submitter_contact" => optStrVal b.submitter_contact
  | "why_now" => optStrVal b.why_now
  | "alternatives_considered" => optListVal b.alternatives_considered
  | "strengths" => optListVal b.strengths
  | "weaknesses" => optListVal b.weaknesses
  | _ => .none

/-! ### Python string primitives

Executable models of the Python `str` methods used by the source
(`strip`, `lower`), over the character list of the string (ASCII
approximation of the unicode behaviour). -/

/-- Python `str.strip()` whitespace (ASCII approximation). -/
def pyIsSpace (c : Char) : Bool :=
  c == ' ' || c == '\t' || c == '\n' || c == '\r' ||
  c == '\x0b' || c == '\x0c'

/-- Python `s.strip()` on a character list. -/
def pyStrip (l : List Char) : List Char :=
  ((l.dropWhile pyIsSpace).reverse.dropWhile pyIsSpace).reverse

/-- Python `s.strip()`. -/
def pyStripString (s : String) : String :=
  String.mk (pyStrip s.toList)

/-- Python `s.lower()`. -/
def pyLower (s : String) : String :=
  String.mk (s.toList.map Char.toLower)

/-! ### Scoring engine — src/app/quality.py -/

/-- Model of `FIELD_WEIGHTS` (quality.py): weights for completeness scoring. -/
def FIELD_WEIGHTS : List (String × ℚ) :=
  [("name", 10),
   ("quadrant", 5),
   ("ring", 5),
   ("description", 25),
   ("submitter_name", 5),
   ("submitter_contact", 5),
   ("why_now", 15),
   ("client_references", 10),
   ("alternatives_considered", 10),
   ("strengths", 5),
   ("weaknesses", 5)]

/-- The kind of predicate carried by one `RING_EVIDENCE` entry: a
`min_count` list-length check or a `required` presence check. -/
inductive CheckKind
  | minCount (n : Nat)
  | required
deriving DecidableEq

/-- One entry of the `RING_EVIDENCE` table. -/
structure EvidenceCheck where
  field : String
  kind : CheckKind
  bonus : ℚ
  gap : String
deriving DecidableEq

/-- Model of `RING_EVIDENCE` (quality.py), as the lookup `RING_EVIDENCE.get(key, [])`. -/
def RING_EVIDENCE : String → List EvidenceCheck
  | "Adopt" =>
      [⟨"client_references", .minCount 2, 20,
        "Adopt suggests at least 2 client references"⟩,
       ⟨"description", .required, 10,
        "A description is essential for an Adopt recommendation"⟩,
       ⟨"strengths", .required, 10,
        "List strengths to justify Adopt placement"⟩]
  | "Trial" =>
      [⟨"client_references", .minCount 1, 15,
        "Trial blips benefit from at least 1 client reference"⟩,
       ⟨"description", .required, 10,
        "A description is essential for a Trial recommendation"⟩,
       ⟨"alternatives_considered", .required, 15,
        "Describe alternatives you considered before recommending Trial"⟩]
  | "Assess" =>
      [⟨"description", .required, 20,
        "A thorough description is critical for an Assess recommendation"⟩,
       ⟨"why_now", .required, 20,
        "Explain why this technology is worth assessing now"⟩]
  | "Hold" =>
      [⟨"description", .required, 10,
        "Describe why teams should hold on this technology"⟩,
       ⟨"weaknesses", .required, 15,
        "Describe weaknesses that justify the Hold recommendation"⟩,
       ⟨"alternatives_considered", .required, 15,
        "Suggest alternatives teams should consider instead"⟩]
  | _ => []

/-- Model of `_BONUS_TOTAL` (quality.py). -/
def _BONUS_TOTAL : ℚ := 40

/-- Model of `_field_is_filled` (quality.py). -/
def _field_is_filled : PyValue → Bool
  | .none => false
  | .str s => (pyStripString s).length > 0
  | .list l => l.length > 0
  | .bool _ => true

/-- Whether one evidence check of `_ring_bonus` / `get_ring_gaps` is
satisfied by the record. -/
def checkSatisfied (b : BlipSubmission) (c : EvidenceCheck) : Bool :=
  match c.kind with
  | .minCount n =>
      match b.pyGetattr c.field with
      | .list l => decide (n ≤ l.length)
      | _ => false
  | .required => _field_is_filled (b.pyGetattr c.field)

/-- Model of `_ring_bonus` (quality.py). -/
def _ring_bonus (b : BlipSubmission) : ℚ :=
  match b.ring with
  | Option.none => 0
  | some r =>
      (RING_EVIDENCE r.value).foldl
        (fun earned c => if checkSatisfied b c then earned + c.bonus else earned) 0

/-- Model of `calculate_completeness` (quality.py). -/
def calculate_completeness (b : BlipSubmission) : ℚ :=
  FIELD_WEIGHTS.foldl
    (fun earned p =>
      if _field_is_filled (b.pyGetattr p.1) then earned + p.2 else earned) 0

/-- Model of `calculate_quality` (quality.py). -/
def calculate_quality (b : BlipSubmission) : ℚ :=
  (calculate_completeness b + _ring_bonus b) / (100 + _BONUS_TOTAL) * 100

/-- Model of `calculate_scores` (quality.py). -/
def calculate_scores (b : BlipSubmission) : ℚ × ℚ :=
  (calculate_completeness b, calculate_quality b)

/-- Model of `get_missing_fields` (quality.py). -/
def get_missing_fields (b : BlipSubmission) : List String :=
  ((FIELD_WEIGHTS.map Prod.fst).filter
    (fun f => !(_field_is_filled (b.pyGetattr f))))

/-- Model of `get_ring_gaps` (quality.py). -/
def get_ring_gaps (b : BlipSubmission) : List String :=
  match b.ring with
  | Option.none => []
  | some r =>
      ((RING_EVIDENCE r.value).filter (fun c => !(checkSatisfied b c))).map
        (fun c => c.gap)

/-! ### History matcher — src/app/radar_history.py -/

/-- The sort relation used by `find_matching_blips`: ascending on the
`volume` string (`sorted(..., key=lambda b: b.volume)`). -/
def volLe (a b : HistoricalBlip) : Prop := a.volume ≤ b.volume

instance : DecidableRel volLe := fun a b =>
  inferInstanceAs (Decidable (a.volume ≤ b.volume))

instance : IsTotal HistoricalBlip volLe :=
  ⟨fun a b => le_total a.volume b.volume⟩

instance : IsTrans HistoricalBlip volLe :=
  ⟨fun _ _ _ h h' => le_trans h h'⟩

/-- Python stable `sorted(l, key=lambda b: b.volume)`. -/
def sortByVolume (l : List HistoricalBlip) : List HistoricalBlip :=
  l.insertionSort volLe

/-- Python `x in y` on strings: contiguous substring test. -/
def strContains (hay needle : String) : Bool :=
  decide (needle.toList <:+: hay.toList)

/-- Model of `find_matching_blips` (radar_history.py), with the in-memory
`_history` corpus passed explicitly. -/
def find_matching_blips (history : List HistoricalBlip) (name : String) :
    List HistoricalBlip :=
  let normalized := pyLower (pyStripString name)
  if normalized = "" then []
  else
    let exact := history.filter
      (fun b => pyLower (pyStripString b.name) == normalized)
    if exact ≠ [] then sortByVolume exact
    else
      let substringMatches := history.filter (fun b =>
        strContains (pyLower (pyStripString b.name)) normalized ||
        strContains normalized (pyLower (pyStripString b.name)))
      sortByVolume substringMatches

/-! ### Sanitization — src/app/sanitization.py -/

def MAX_NAME_LENGTH : Nat := 200
def MAX_DESCRIPTION_LENGTH : Nat := 5000
def MAX_SHORT_FIELD_LENGTH : Nat := 500
def MAX_LIST_ITEMS : Nat := 20
def MAX_LIST_ITEM_LENGTH : Nat := 500

/-- Characters removed by `sanitize_text`: the regex class
`[\x00-\x08\x0b\x0c\x0e-\x1f\x7f]` (null bytes and control characters
other than newline and tab). -/
def isRemovedControl (c : Char) : Bool :=
  (c.toNat ≤ 0x08) || c.toNat == 0x0b || c.toNat == 0x0c ||
  (0x0e ≤ c.toNat && c.toNat ≤ 0x1f) || c.toNat == 0x7f

/-- Horizontal whitespace, the class `[ \t]`. -/
def isHorizWS (c : Char) : Bool := c == ' ' || c == '\t'

/-- Auxiliary for run collapsing: `run` is the maximal run of
`isR`-characters read so far; a maximal run of length at least
`thresh` is replaced by `repl` (the global greedy regex substitution
of for example `[ \t]{10,}`). -/
def collapseRunsAux (isR : Char → Bool) (thresh : Nat) (repl : List Char) :
    List Char → List Char → List Char
  | run, [] => if thresh ≤ run.length then repl else run
  | run, c :: rest =>
    if isR c then collapseRunsAux isR thresh repl (run ++ [c]) rest
    else
      (if thresh ≤ run.length then repl else run) ++
        c :: collapseRunsAux isR thresh repl [] rest

def collapseRuns (isR : Char → Bool) (thresh : Nat) (repl : List Char)
    (l : List Char) : List Char :=
  collapseRunsAux isR thresh repl [] l

/-- Model of `sanitize_text` (sanitization.py): truncate to `maxLength`, remove
null bytes and control characters, collapse ten or more consecutive
spaces and tabs to four spaces, collapse five or more consecutive
newlines to three, then strip. -/
def sanitize_text (text : String) (maxLength : Nat) : String :=
  if text = "" then text
  else
    let t := text.toList.take maxLength
    let t := t.filter (fun c => !(isRemovedControl c))
    let t := collapseRuns isHorizWS 10 [' ', ' ', ' ', ' '] t
    let t := collapseRuns (fun c => c == '\n') 5 ['\n', '\n', '\n'] t
    String.mk (pyStrip t)

/-! ### Pydantic validation of tool arguments — models.py

`_handle_extract_blip` runs `BlipSubmission.model_validate(data)` on
the parsed tool-argument dict, which applies the `mode='before'`
sanitizing validators and the field type/length constraints, raising
`ValidationError` when a value cannot be coerced.  The argument dict is
modelled as a structure of optional JSON values over the keys of the
`extract_blip_data` input schema (a missing field is `Option.none`, a
field present with JSON `null` is `some JValue.null`). -/

/-- A JSON value as produced by `json.loads` for a tool argument. -/
inductive JValue
  | null
  | str (s : String)
  | arr (l : List JValue)
  | bool (b : Bool)

/-- The parsed argument object of one tool call, over the keys of the
`extract_blip_data` input schema. -/
structure ToolInput where
  name : Option JValue := Option.none
  quadrant : Option JValue := Option.none
  ring : Option JValue := Option.none
  description : Option JValue := Option.none
  client_references : Option JValue := Option.none
  submitter_name : Option JValue := Option.none
  submitter_contact : Option JValue := Option.none
  why_now : Option JValue := Option.none
  alternatives_considered : Option JValue := Option.none
  strengths : Option JValue := Option.none
  weaknesses : Option JValue := Option.none
  is_resubmission : Option JValue := Option.none
  resubmission_rationale : Option JValue := Option.none

/-- Coercion of `name`: sanitized short field, then the pydantic
`Field(max_length=MAX_NAME_LENGTH)` constraint. -/
def coerceName : JValue → Except Unit (Option String)
  | .null => .ok Option.none
  | .str s =>
      let t := sanitize_text s MAX_SHORT_FIELD_LENGTH
      if t.length ≤ MAX_NAME_LENGTH then .ok (some t) else .error ()
  | _ => .error ()

/-- Coercion of the other sanitized short string fields
(`submitter_name`, `submitter_contact`, `why_now`,
`resubmission_rationale`), `Field(max_length=MAX_SHORT_FIELD_LENGTH)`. -/
def coerceShortStr : JValue → Except Unit (Option String)
  | .null => .ok Option.none
  | .str s =>
      let t := sanitize_text s MAX_SHORT_FIELD_LENGTH
      if t.length ≤ MAX_SHORT_FIELD_LENGTH then .ok (some t) else .error ()
  | _ => .error ()

/-- Coercion of `description`, `Field(max_length=MAX_DESCRIPTION_LENGTH)`. -/
def coerceDescription : JValue → Except Unit (Option String)
  | .null => .ok Option.none
  | .str s =>
      let t := sanitize_text s MAX_DESCRIPTION_LENGTH
      if t.length ≤ MAX_DESCRIPTION_LENGTH then .ok (some t) else .error ()
  | _ => .error ()

/-- Pydantic coercion of the `quadrant` `str`-enum: exact canonical
label match, anything else raises. -/
def coerceQuadrant : JValue → Except Unit (Option Quadrant)
  | .null => .ok Option.none
  | .str "Techniques" => .ok (some .techniques)
  | .str "Tools" => .ok (some .tools)
  | .str "Platforms" => .ok (some .platforms)
  | .str "Languages & Frameworks" => .ok (some .languagesFrameworks)
  | _ => .error ()

/-- Pydantic coercion of the `ring` `str`-enum: exact canonical label
match, anything else raises. -/
def coerceRing : JValue → Except Unit (Option Ring)
  | .null => .ok Option.none
  | .str "Adopt" => .ok (some .adopt)
  | .str "Trial" => .ok (some .trial)
  | .str "Assess" => .ok (some .assess)
  | .str "Hold" => .ok (some .hold)
  | _ => .error ()

/-- Sanitizing one list item inside `sanitize_list_fields`: a string
item is sanitized, any other item makes validation fail. -/
def sanitizeListItem : JValue → Except Unit String
  | .str s => .ok (sanitize_text s MAX_LIST_ITEM_LENGTH)
  | _ => .error ()

/-- Coercion of the list fields (`client_references`,
`alternatives_considered`, `strengths`, `weaknesses`): limit to
`MAX_LIST_ITEMS` items and sanitize each; a string value is iterated
character by character (Python `for item in v[:MAX_LIST_ITEMS]` on a
`str`); other values raise. -/
def coerceListField : JValue → Except Unit (Option (List String))
  | .null => .ok Option.none
  | .arr l => ((l.take MAX_LIST_ITEMS).mapM sanitizeListItem).map some
  | .str s =>
      .ok (some ((s.toList.take MAX_LIST_ITEMS).map
        (fun c => sanitize_text (String.mk [c]) MAX_LIST_ITEM_LENGTH)))
  | .bool _ => .error ()

/-- Pydantic lax coercion of `is_resubmission : bool`. -/
def coerceBool : JValue → Except Unit Bool
  | .bool b => .ok b
  | .str s =>
      match s.toLower with
      | "true" => .ok true
      | "t" => .ok true
      | "yes" => .ok true
      | "y" => .ok true
      | "on" => .ok true
      | "1" => .ok true
      | "false" => .ok false
      | "f" => .ok false
      | "no" => .ok false
      | "n" => .ok false
      | "off" => .ok false
      | "0" => .ok false
      | _ => .error ()
  | _ => .error ()

/-- Validate one optional key: an absent key keeps the pydantic
default, a present key is coerced. -/
def coerceField {α : Type} (coe : JValue → Except Unit α) (dflt : α) :
    Option JValue → Except Unit α
  | Option.none => .ok dflt
  | some v => coe v

/-- Model of `BlipSubmission.model_validate(data)` (claude_client.py line 155):
builds a fresh validated record from the argument object, raising when
any present field cannot be coerced. -/
def model_validate (d : ToolInput) : Except Unit BlipSubmission := do
  let name ← coerceField coerceName Option.none d.name
  let quadrant ← coerceField coerceQuadrant Option.none d.quadrant
  let ring ← coerceField coerceRing Option.none d.ring
  let description ← coerceField coerceDescription Option.none d.description
  let client_references ← coerceField coerceListField Option.none d.client_references
  let submitter_name ← coerceField coerceShortStr Option.none d.submitter_name
  let submitter_contact ← coerceField coerceShortStr Option.none d.submitter_contact
  let why_now ← coerceField coerceShortStr Option.none d.why_now
  let alternatives_considered ← coerceField coerceListField Option.none d.alternatives_considered
  let strengths ← coerceField coerceListField Option.none d.strengths
  let weaknesses ← coerceField coerceListField Option.none d.weaknesses
  let isResub ← coerceField coerceBool false d.is_resubmission
  let rationale ← coerceField coerceShortStr Option.none d.resubmission_rationale
  return { name, quadrant, ring, description, client_references,
           submitter_name, submitter_contact, why_now,
           alternatives_considered, strengths, weaknesses,
           is_resubmission := isResub,
           resubmission_rationale := rationale }

/-! ### Tool handlers — src/app/claude_client.py -/

/-- The serialized result dict of one tool call. -/
inductive ToolResultData
  | extractResult (completeness quality : ℚ)
      (missing_fields ring_gaps : List String)
  | historyResult (found : Bool)
      (appearances : List (String × String × String))
  | unknownTool (message : String)
deriving DecidableEq

/-- The merge loop of `_handle_extract_blip` for one field: a key
absent from `data` is not touched; a present key whose validated value
is `None` is skipped; otherwise the validated value overwrites. -/
def mergeField {α : Type} (present : Option JValue)
    (validatedVal recordVal : Option α) : Option α :=
  match present with
  | Option.none => recordVal
  | some _ =>
      match validatedVal with
      | Option.none => recordVal
      | some v => some v

/-- Model of `_handle_extract_blip` (claude_client.py lines 152-171): validate
the argument object through pydantic (an exception propagating as
`Except.error`), merge every present non-`None` validated field into
the record, recompute and store the scores, and return the status
dict.  The returned record is the mutated `blip`. -/
def _handle_extract_blip (data : ToolInput) (blip : BlipSubmission) :
    Except Unit (BlipSubmission × ToolResultData) := do
  let validated ← model_validate data
  let merged : BlipSubmission :=
    { name := mergeField data.name validated.name blip.name,
      quadrant := mergeField data.quadrant validated.quadrant blip.quadrant,
      ring := mergeField data.ring validated.ring blip.ring,
      description := mergeField data.description validated.description blip.description,
      client_references :=
        mergeField data.client_references validated.client_references blip.client_references,
      submitter_name :=
        mergeField data.submitter_name validated.submitter_name blip.submitter_name,
      submitter_contact :=
        mergeField data.submitter_contact validated.submitter_contact blip.submitter_contact,
      why_now := mergeField data.why_now validated.why_now blip.why_now,
      alternatives_considered :=
        mergeField data.alternatives_considered validated.alternatives_considered
          blip.alternatives_considered,
      strengths := mergeField data.strengths validated.strengths blip.strengths,
      weaknesses := mergeField data.weaknesses validated.weaknesses blip.weaknesses,
      is_resubmission :=
        match data.is_resubmission with
        | Option.none => blip.is_resubmission
        | some _ => validated.is_resubmission,
      previous_appearances := blip.previous_appearances,
      resubmission_rationale :=
        mergeField data.resubmission_rationale validated.resubmission_rationale
          blip.resubmission_rationale,
      completeness_score := blip.completeness_score,
      quality_score := blip.quality_score }
  let scores := calculate_scores merged
  let final : BlipSubmission :=
    { merged with completeness_score := some scores.1,
                  quality_score := some scores.2 }
  return (final,
    .extractResult scores.1 scores.2 (get_missing_fields final) (get_ring_gaps final))

/-- Model of `_handle_check_history` (claude_client.py lines 138-149). -/
def _handle_check_history (history : List HistoricalBlip) (name : String) :
    ToolResultData :=
  let ms := find_matching_blips history name
  if ms = [] then .historyResult false []
  else .historyResult true (ms.map (fun m => (m.volume, m.ring, m.quadrant)))

/-! ### Streaming orchestrator — `get_claude_response` (claude_client.py) -/

/-- One event consumed from the model stream. -/
inductive StreamEvent
  | contentBlockStartToolUse (id name : String)
  | contentBlockStartOther
  | textDelta (text : String)
  | inputJsonDelta (fragment : String)
deriving DecidableEq

/-- Whether an event opens a tool-use content block. -/
def StreamEvent.isToolStart : StreamEvent → Bool
  | .contentBlockStartToolUse _ _ => true
  | _ => false

/-- One pending tool call accumulated while streaming. -/
structure ToolUse where
  id : String
  name : String
  input_json : String
deriving DecidableEq

/-- Append an argument fragment to the most recently opened tool call
(`tool_uses[-1]["input_json"] += ...`); a no-op when no call is open. -/
def appendToLastToolUse (tus : List ToolUse) (j : String) : List ToolUse :=
  match tus with
  | [] => []
  | [tu] => [{ tu with input_json := tu.input_json ++ j }]
  | tu :: rest => tu :: appendToLastToolUse rest j

/-- The stream-consumption loop of `get_claude_response`: accumulate
the collected text and the ordered pending tool calls. -/
def consumeStreamAux : String → List ToolUse → List StreamEvent →
    String × List ToolUse
  | text, tus, [] => (text, tus)
  | text, tus, e :: rest =>
      match e with
      | .contentBlockStartToolUse id name =>
          consumeStreamAux text (tus ++ [⟨id, name, ""⟩]) rest
      | .contentBlockStartOther => consumeStreamAux text tus rest
      | .textDelta t => consumeStreamAux (text ++ t) tus rest
      | .inputJsonDelta j => consumeStreamAux text (appendToLastToolUse tus j) rest

def consumeStream (events : List StreamEvent) : String × List ToolUse :=
  consumeStreamAux "" [] events

/-- One event yielded by the orchestrator to its caller. -/
inductive YieldEvent
  | text_delta (text : String)
  | tool_result (tool_name : String) (data : ToolResultData)
  | done
deriving DecidableEq

/-- Whether a yielded event is a tool outcome. -/
def YieldEvent.isToolResult : YieldEvent → Bool
  | .tool_result _ _ => true
  | _ => false

/-- One content block of a transcript message. -/
inductive ContentBlock
  | text (s : String)
  | tool_use (id name : String) (input : ToolInput)
  | tool_result_block (tool_use_id : String) (content : ToolResultData)

/-- One transcript message appended by the orchestrator. -/
structure Message where
  role : String
  content : List ContentBlock

/-- Model of `json.loads(tu["input_json"]) if tu["input_json"] else {}` with a
`JSONDecodeError` replaced by `{}`; the parser itself is abstracted as
a function returning `Option.none` on a parse failure. -/
def parseToolInput (parse : String → Option ToolInput) (buf : String) :
    ToolInput :=
  if buf = "" then {} else (parse buf).getD {}

/-- Model of `tool_input.get("name", "")` followed by the `.strip()` inside
`find_matching_blips`: a present non-string value raises
(`AttributeError` on `strip`). -/
def inputGetName (d : ToolInput) : Except Unit String :=
  match d.name with
  | Option.none => .ok ""
  | some (.str s) => .ok s
  | some _ => .error ()

/-- Result of dispatching the pending tool calls of one round:
`ok events results blip` on normal completion (yielded events, the
tool-result blocks for the follow-up user message, the updated
record), or `raised events blip` when a handler raised after yielding
`events` and partially updating the record. -/
inductive DispatchResult
  | ok (events : List YieldEvent) (results : List ContentBlock)
      (blip : BlipSubmission)
  | raised (events : List YieldEvent) (blip : BlipSubmission)

/-- The tool-dispatch loop of `get_claude_response` (lines 264-297):
`check_radar_history` and `extract_blip_data` yield a `tool_result`
event and append a tool-result block; any other name appends an
error-shaped tool-result block without yielding; an exception from a
handler propagates, aborting the loop. -/
def dispatchTools (parse : String → Option ToolInput)
    (history : List HistoricalBlip) :
    List ToolUse → BlipSubmission → DispatchResult
  | [], blip => .ok [] [] blip
  | tu :: rest, blip =>
    let tool_input := parseToolInput parse tu.input_json
    if tu.name = "check_radar_history" then
      match inputGetName tool_input with
      | .error _ => .raised [] blip
      | .ok nm =>
        let result := _handle_check_history history nm
        match dispatchTools parse history rest blip with
        | .ok evs res b =>
            .ok (.tool_result "check_radar_history" result :: evs)
              (.tool_result_block tu.id result :: res) b
        | .raised evs b =>
            .raised (.tool_result "check_radar_history" result :: evs) b
    else if tu.name = "extract_blip_data" then
      match _handle_extract_blip tool_input blip with
      | .error _ => .raised [] blip
      | .ok (blip', result) =>
        match dispatchTools parse history rest blip' with
        | .ok evs res b =>
            .ok (.tool_result "extract_blip_data" result :: evs)
              (.tool_result_block tu.id result :: res) b
        | .raised evs b =>
            .raised (.tool_result "extract_blip_data" result :: evs) b
    else
      let result := ToolResultData.unknownTool ("Unknown tool: " ++ tu.name)
      match dispatchTools parse history rest blip with
      | .ok evs res b => .ok evs (.tool_result_block tu.id result :: res) b
      | .raised evs b => .raised evs b

/-- The text-fragment events yielded while streaming. -/
def textYields (events : List StreamEvent) : List YieldEvent :=
  events.filterMap (fun e =>
    match e with
    | .textDelta t => some (.text_delta t)
    | _ => Option.none)

/-- Outcome of one round of the `while True` loop of
`get_claude_response`: `done` terminates the turn after yielding the
text fragments and one `done` event with the record untouched;
`continues` carries the yielded events, the two appended transcript
messages and the updated record; `raised` is an exception escaping the
round after the assistant message was appended. -/
inductive RoundOutcome
  | done (events : List YieldEvent) (blip : BlipSubmission)
  | continues (events : List YieldEvent) (newMessages : List Message)
      (blip : BlipSubmission)
  | raised (events : List YieldEvent) (newMessages : List Message)
      (blip : BlipSubmission)

def RoundOutcome.yields : RoundOutcome → List YieldEvent
  | .done e _ => e
  | .continues e _ _ => e
  | .raised e _ _ => e

def RoundOutcome.isRaised : RoundOutcome → Bool
  | .raised _ _ _ => true
  | _ => false

/-- One iteration of the `while True` loop of `get_claude_response`,
as a function of the stream events consumed from the model. -/
def processRound (parse : String → Option ToolInput)
    (history : List HistoricalBlip) (events : List StreamEvent)
    (blip : BlipSubmission) : RoundOutcome :=
  let consumed := consumeStream events
  let collected_text := consumed.1
  let tool_uses := consumed.2
  if tool_uses = [] then .done (textYields events ++ [.done]) blip
  else
    let assistant_content :=
      (if collected_text ≠ "" then [ContentBlock.text collected_text] else []) ++
      tool_uses.map (fun tu =>
        ContentBlock.tool_use tu.id tu.name (parseToolInput parse tu.input_json))
    let assistantMsg : Message := ⟨"assistant", assistant_content⟩
    match dispatchTools parse history tool_uses blip with
    | .ok evs results blip' =>
        .continues (textYields events ++ evs)
          [assistantMsg, ⟨"user", results⟩] blip'
    | .raised evs blip' =>
        .raised (textYields events ++ evs) [assistantMsg] blip'

/-- The full result of one turn: the yielded events, the final record
and whether the turn ended with an exception. -/
structure TurnResult where
  events : List YieldEvent
  blip : BlipSubmission
  raised : Bool
deriving DecidableEq

/-- Model of `get_claude_response` over a scripted list of model responses (one
list of stream events per round of the loop); an exhausted script ends
the turn with no further events. -/
def runTurn (parse : String → Option ToolInput)
    (history : List HistoricalBlip) :
    List (List StreamEvent) → BlipSubmission → TurnResult
  | [], blip => ⟨[], blip, false⟩
  | evs :: rest, blip =>
      match processRound parse history evs blip with
      | .done events b' => ⟨events, b', false⟩
      | .continues events _ b' =>
          let t := runTurn parse history rest b'
          ⟨events ++ t.events, t.blip, t.raised⟩
      | .raised events _ b' => ⟨events, b', true⟩

/-! ### Helper lemmas about the scoring engine -/

lemma optStrVal_shape (o : Option String) :
    optStrVal o = .none ∨ ∃ s, optStrVal o = .str s := by
  cases o <;> simp [optStrVal]

lemma optListVal_shape (o : Option (List String)) :
    optListVal o = .none ∨ ∃ l, optListVal o = .list l := by
  cases o <;> simp [optListVal]

/-- Model of `getattr` on the quality fields never produces a boolean: every
weighted field is an optional string, enum or list. -/
lemma pyGetattr_shape (b : BlipSubmission) (f : String) :
    b.pyGetattr f = PyValue.none ∨ (∃ s, b.pyGetattr f = .str s) ∨
      (∃ l, b.pyGetattr f = .list l) := by
  unfold BlipSubmission.pyGetattr
  split
  · exact (optStrVal_shape b.name).imp id Or.inl
  · cases b.quadrant <;> simp
  · cases b.ring <;> simp
  · exact (optStrVal_shape b.description).imp id Or.inl
  · exact (optListVal_shape b.client_references).imp id Or.inr
  · exact (optStrVal_shape b.submitter_name).imp id Or.inl
  · exact (optStrVal_shape b.submitter_contact).imp id Or.inl
  · exact (optStrVal_shape b.why_now).imp id Or.inl
  · exact (optListVal_shape b.alternatives_considered).imp id Or.inr
  · exact (optListVal_shape b.strengths).imp id Or.inr
  · exact (optListVal_shape b.weaknesses).imp id Or.inr
  · exact Or.inl rfl

/-- Every field of the freshly created empty record reads as `None`. -/
lemma empty_pyGetattr (f : String) :
    BlipSubmission.pyGetattr {} f = PyValue.none := by
  unfold BlipSubmission.pyGetattr
  split <;> rfl

lemma foldl_filter_sum {α : Type} (f : α → Bool) (w : α → ℚ) :
    ∀ (l : List α) (init : ℚ),
      l.foldl (fun acc a => if f a then acc + w a else acc) init
        = init + ((l.filter f).map w).sum
  | [], init => by simp
  | a :: l, init => by
      by_cases h : f a
      · simp [List.foldl, List.filter, h, foldl_filter_sum f w l (init + w a)]
        ring
      · simp [List.foldl, List.filter, h, foldl_filter_sum f w l init]

lemma calculate_completeness_eq (b : BlipSubmission) :
    calculate_completeness b =
      ((FIELD_WEIGHTS.filter
        (fun p => _field_is_filled (b.pyGetattr p.1))).map (fun p => p.2)).sum := by
  have h := foldl_filter_sum (fun p => _field_is_filled (b.pyGetattr p.1))
    (fun p => p.2) FIELD_WEIGHTS 0
  simpa [calculate_completeness] using h

lemma field_weights_sum : ((FIELD_WEIGHTS.map (fun p => p.2)).sum : ℚ) = 100 := by
  norm_num [FIELD_WEIGHTS]

lemma string_length_pos_iff (s : String) : 0 < s.length ↔ s ≠ "" := by
  rcases s with ⟨data⟩
  cases data with
  | nil => simp [String.length]
  | cons c cs => simp [String.length, String.ext_iff]

lemma field_weights_nonneg : ∀ x ∈ FIELD_WEIGHTS.map (fun p : String × ℚ => p.2), (0:ℚ) ≤ x := by
  intro x hx
  simp only [FIELD_WEIGHTS, List.map_cons, List.map_nil] at hx
  fin_cases hx <;> norm_num

lemma calculate_completeness_nonneg (b : BlipSubmission) :
    0 ≤ calculate_completeness b := by
  rw [calculate_completeness_eq]
  refine List.sum_nonneg fun x hx => ?_
  exact field_weights_nonneg x (((List.filter_sublist _).map _).subset hx)

lemma calculate_completeness_le (b : BlipSubmission) :
    calculate_completeness b ≤ 100 := by
  rw [calculate_completeness_eq, ← field_weights_sum]
  exact ((List.filter_sublist _).map _).sum_le_sum field_weights_nonneg

lemma ring_bonus_eq (b : BlipSubmission) (r : Ring) (h : b.ring = some r) :
    _ring_bonus b =
      (((RING_EVIDENCE r.value).filter (checkSatisfied b)).map
        (fun c => c.bonus)).sum := by
  have hf := foldl_filter_sum (checkSatisfied b) (fun c => c.bonus)
    (RING_EVIDENCE r.value) 0
  simpa [_ring_bonus, h] using hf

lemma ring_evidence_bonus_nonneg (key : String) :
    ∀ x ∈ (RING_EVIDENCE key).map (fun c => c.bonus), (0:ℚ) ≤ x := by
  intro x hx
  unfold RING_EVIDENCE at hx
  split at hx <;> simp only [List.map_cons, List.map_nil] at hx <;>
    fin_cases hx <;> norm_num

lemma ring_evidence_bonus_sum (r : Ring) :
    ((RING_EVIDENCE r.value).map (fun c => c.bonus)).sum = 40 := by
  cases r <;> norm_num [RING_EVIDENCE, Ring.value]

lemma ring_bonus_nonneg (b : BlipSubmission) : 0 ≤ _ring_bonus b := by
  cases h : b.ring with
  | none => simp [_ring_bonus, h]
  | some r =>
      rw [ring_bonus_eq b r h]
      refine List.sum_nonneg fun x hx => ?_
      exact ring_evidence_bonus_nonneg r.value x
        (((List.filter_sublist _).map _).subset hx)

lemma ring_bonus_le (b : BlipSubmission) : _ring_bonus b ≤ 40 := by
  cases h : b.ring with
  | none => simp [_ring_bonus, h]
  | some r =>
      rw [ring_bonus_eq b r h, ← ring_evidence_bonus_sum r]
      exact ((List.filter_sublist _).map _).sum_le_sum
        (ring_evidence_bonus_nonneg r.value)

lemma calculate_quality_le (b : BlipSubmission) : calculate_quality b ≤ 100 := by
  have h1 := calculate_completeness_le b
  have h2 := ring_bonus_le b
  have hq : calculate_quality b
      = (calculate_completeness b + _ring_bonus b) * (100 / 140) := by
    unfold calculate_quality _BONUS_TOTAL
    ring
  rw [hq]
  nlinarith

/-! ### Claim theorems: scoring engine -/

/-- C4: for each of the four tiers, the bonus weights in the evidence
table sum to the same fixed constant `_BONUS_TOTAL = 40`. -/
theorem C4_ring_bonus_totals_equal :
    ∀ r : Ring, ((RING_EVIDENCE r.value).map (fun c => c.bonus)).sum = _BONUS_TOTAL := by
  intro r
  cases r <;> norm_num [RING_EVIDENCE, Ring.value, _BONUS_TOTAL]

/-- C2: quality equals `min(100, (completeness + earned_bonus) / (100 +
bonus_total) * 100)` when a ring is selected (the earned bonus summing
the bonus weights of exactly the satisfied requirements of the
selected ring); equals `completeness / (100 + bonus_total) * 100` when
no ring is selected; and never exceeds 100. -/
theorem C2_quality_formula :
    ∀ b : BlipSubmission,
      (b.ring ≠ Option.none →
        calculate_quality b =
          min 100 ((calculate_completeness b + _ring_bonus b) /
            (100 + _BONUS_TOTAL) * 100)) ∧
      (b.ring = Option.none →
        calculate_quality b =
          calculate_completeness b / (100 + _BONUS_TOTAL) * 100) ∧
      (∀ r : Ring, b.ring = some r →
        _ring_bonus b =
          (((RING_EVIDENCE r.value).filter (checkSatisfied b)).map
            (fun c => c.bonus)).sum) ∧
      calculate_quality b ≤ 100 := by
  intro b
  refine ⟨fun _ => ?_, fun h => ?_, fun r h => ring_bonus_eq b r h, calculate_quality_le b⟩
  · exact (min_eq_right (calculate_quality_le b)).symm
  · unfold calculate_quality
    simp [_ring_bonus, h]

/-- Witness for C2 at a concrete record with a selected ring. -/
theorem C2_quality_formula_witness :
    calculate_quality { name := some "Docker", ring := some Ring.adopt } =
      min 100 ((calculate_completeness { name := some "Docker", ring := some Ring.adopt } +
        _ring_bonus { name := some "Docker", ring := some Ring.adopt }) /
          (100 + _BONUS_TOTAL) * 100) ∧
    _ring_bonus { name := some "Docker", ring := some Ring.adopt } =
      (((RING_EVIDENCE Ring.adopt.value).filter
        (checkSatisfied { name := some "Docker", ring := some Ring.adopt })).map
          (fun c => c.bonus)).sum ∧
    calculate_quality {} = calculate_completeness {} / (100 + _BONUS_TOTAL) * 100 :=
  ⟨(C2_quality_formula _).1 (by simp),
   (C2_quality_formula _).2.2.1 Ring.adopt rfl,
   (C2_quality_formula {}).2.1 rfl⟩

/-- C3: completeness lies in `[0, 100]`, equals the sum of the fixed
weights of exactly the filled fields, the eleven weights sum to 100, a
field is filled exactly when it is a non-empty trimmed string or a
non-empty list, and filling additional fields never decreases
completeness. -/
theorem C3_completeness_weighted_sum :
    (∀ b : BlipSubmission,
      0 ≤ calculate_completeness b ∧ calculate_completeness b ≤ 100 ∧
      calculate_completeness b =
        ((FIELD_WEIGHTS.filter
          (fun p => _field_is_filled (b.pyGetattr p.1))).map (fun p => p.2)).sum) ∧
    ((FIELD_WEIGHTS.map (fun p => p.2)).sum : ℚ) = 100 ∧
    (∀ (b : BlipSubmission) (f : String),
      _field_is_filled (b.pyGetattr f) = true ↔
        ((∃ s, b.pyGetattr f = .str s ∧ pyStripString s ≠ "") ∨
         (∃ l, b.pyGetattr f = .list l ∧ l ≠ []))) ∧
    (∀ b b' : BlipSubmission,
      (∀ f, _field_is_filled (b.pyGetattr f) = true →
            _field_is_filled (b'.pyGetattr f) = true) →
      calculate_completeness b ≤ calculate_completeness b') := by
  refine ⟨fun b => ⟨calculate_completeness_nonneg b, calculate_completeness_le b,
      calculate_completeness_eq b⟩, field_weights_sum, fun b f => ?_, fun b b' h => ?_⟩
  · rcases pyGetattr_shape b f with h | ⟨s, h⟩ | ⟨l, h⟩ <;> rw [h]
    · simp [_field_is_filled]
    · simp only [_field_is_filled, decide_eq_true_eq, gt_iff_lt]
      constructor
      · intro hs
        refine Or.inl ⟨s, rfl, fun he => ?_⟩
        rw [he] at hs
        simp [String.length] at hs
      · rintro (⟨s', hs', hne⟩ | ⟨l', hl', _⟩)
        · injection hs' with h2
          subst h2
          exact (string_length_pos_iff _).mpr hne
        · cases hl'
    · simp only [_field_is_filled, decide_eq_true_eq, gt_iff_lt]
      constructor
      · intro hl
        refine Or.inr ⟨l, rfl, fun he => ?_⟩
        rw [he] at hl
        simp at hl
      · rintro (⟨s', hs', _⟩ | ⟨l', hl', hne⟩)
        · cases hs'
        · injection hl' with h2
          subst h2
          exact List.length_pos.mpr hne
  · rw [calculate_completeness_eq, calculate_completeness_eq]
    refine List.Sublist.sum_le_sum ?_ ?_
    · exact (List.monotone_filter_right FIELD_WEIGHTS fun p hp => h p.1 hp).map _
    · intro x hx
      exact field_weights_nonneg x (((List.filter_sublist _).map _).subset hx)

/-- Witness for C3 at concrete records. -/
theorem C3_completeness_weighted_sum_witness :
    (0 ≤ calculate_completeness {} ∧ calculate_completeness {} ≤ 100 ∧
      calculate_completeness {} =
        ((FIELD_WEIGHTS.filter
          (fun p => _field_is_filled (BlipSubmission.pyGetattr {} p.1))).map
            (fun p => p.2)).sum) ∧
    (_field_is_filled (BlipSubmission.pyGetattr { name := some "Docker" } "name") = true ↔
      ((∃ s, BlipSubmission.pyGetattr { name := some "Docker" } "name" = .str s ∧ pyStripString s ≠ "") ∨
       (∃ l, BlipSubmission.pyGetattr { name := some "Docker" } "name" = .list l ∧ l ≠ []))) ∧
    calculate_completeness {} ≤ calculate_completeness { name := some "Docker" } :=
  ⟨C3_completeness_weighted_sum.1 {},
   C3_completeness_weighted_sum.2.2.1 { name := some "Docker" } "name",
   C3_completeness_weighted_sum.2.2.2 {} { name := some "Docker" }
     (by intro f h; rw [empty_pyGetattr] at h; exact absurd h (by simp [_field_is_filled]))⟩

/-! ### Claim theorems: history matcher -/

/-- C9: the appearances returned by `find_matching_blips` — from either
the exact pass or the substring pass — are sorted by source volume
ascending. -/
theorem C9_find_sorted_by_volume :
    ∀ (history : List HistoricalBlip) (name : String),
      (find_matching_blips history name).Sorted volLe := by
  intro history name
  simp only [find_matching_blips]
  split
  · exact List.sorted_nil
  · split
    · exact List.sorted_insertionSort volLe _
    · exact List.sorted_insertionSort volLe _

/-- C5: when at least one corpus entry matches the (non-degenerate)
query exactly after trim and case-fold, `find_matching_blips` returns
exactly the exact matches — a permutation of the exact filter, every
element of which is an exact match — and a query that is empty after
trimming returns the empty list. -/
theorem C5_exact_match_short_circuit :
    ∀ (history : List HistoricalBlip) (name : String),
      (pyLower (pyStripString name) = "" → find_matching_blips history name = []) ∧
      (pyLower (pyStripString name) ≠ "" →
        history.filter (fun b => pyLower (pyStripString b.name) == pyLower (pyStripString name)) ≠ [] →
        ((find_matching_blips history name).Perm
            (history.filter (fun b => pyLower (pyStripString b.name) == pyLower (pyStripString name))) ∧
         ∀ b ∈ find_matching_blips history name,
           pyLower (pyStripString b.name) = pyLower (pyStripString name))) := by
  intro history name
  constructor
  · intro h
    unfold find_matching_blips
    simp [h]
  · intro hne hex
    have hfind : find_matching_blips history name
        = sortByVolume (history.filter
            (fun b => pyLower (pyStripString b.name) == pyLower (pyStripString name))) := by
      unfold find_matching_blips
      simp [hne, hex]
    rw [hfind]
    refine ⟨List.perm_insertionSort _ _, fun b hb => ?_⟩
    have hmem : b ∈ history.filter
        (fun b => pyLower (pyStripString b.name) == pyLower (pyStripString name)) :=
      (List.perm_insertionSort _ _).mem_iff.mp hb
    have hbeq := List.of_mem_filter hmem
    exact eq_of_beq hbeq

/-- Witness for C5 on a concrete corpus where a substring match
coexists with exact matches, plus the empty-query case. -/
theorem C5_exact_match_short_circuit_witness :
    ((find_matching_blips
        [⟨"Docker Compose", "Trial", "Tools", "Volume 2"⟩,
         ⟨"Docker", "Adopt", "Tools", "Volume 9"⟩,
         ⟨"Docker", "Trial", "Tools", "Volume 31"⟩] "Docker ").Perm
       ([⟨"Docker Compose", "Trial", "Tools", "Volume 2"⟩,
         ⟨"Docker", "Adopt", "Tools", "Volume 9"⟩,
         ⟨"Docker", "Trial", "Tools", "Volume 31"⟩].filter
           (fun b => pyLower (pyStripString b.name) == pyLower (pyStripString "Docker "))) ∧
     ∀ b ∈ find_matching_blips
        [⟨"Docker Compose", "Trial", "Tools", "Volume 2"⟩,
         ⟨"Docker", "Adopt", "Tools", "Volume 9"⟩,
         ⟨"Docker", "Trial", "Tools", "Volume 31"⟩] "Docker ",
       pyLower (pyStripString b.name) = pyLower (pyStripString "Docker ")) ∧
    find_matching_blips
        [⟨"Docker Compose", "Trial", "Tools", "Volume 2"⟩] "  " = [] :=
  ⟨(C5_exact_match_short_circuit _ "Docker ").2 (by decide) (by decide),
   (C5_exact_match_short_circuit _ "  ").1 (by decide)⟩

/-! ### Field-indexed view of the argument object and the record -/

/-- The keys of the `extract_blip_data` argument object. -/
inductive ArgField
  | name
  | quadrant
  | ring
  | description
  | client_references
  | submitter_name
  | submitter_contact
  | why_now
  | alternatives_considered
  | strengths
  | weaknesses
  | is_resubmission
  | resubmission_rationale
deriving DecidableEq

/-- Lookup of one key in the parsed argument object (`key in data` is
`≠ Option.none`, a JSON `null` is `some JValue.null`). -/
def ToolInput.get (d : ToolInput) : ArgField → Option JValue
  | .name => d.name
  | .quadrant => d.quadrant
  | .ring => d.ring
  | .description => d.description
  | .client_references => d.client_references
  | .submitter_name => d.submitter_name
  | .submitter_contact => d.submitter_contact
  | .why_now => d.why_now
  | .alternatives_considered => d.alternatives_considered
  | .strengths => d.strengths
  | .weaknesses => d.weaknesses
  | .is_resubmission => d.is_resubmission
  | .resubmission_rationale => d.resubmission_rationale

/-- The Python value of one record field addressed by an argument key. -/
def BlipSubmission.argValue (b : BlipSubmission) : ArgField → PyValue
  | .name => optStrVal b.name
  | .quadrant =>
      match b.quadrant with
      | Option.none => .none
      | some q => .str q.value
  | .ring =>
      match b.ring with
      | Option.none => .none
      | some r => .str r.value
  | .description => optStrVal b.description
  | .client_references => optListVal b.client_references
  | .submitter_name => optStrVal b.submitter_name
  | .submitter_contact => optStrVal b.submitter_contact
  | .why_now => optStrVal b.why_now
  | .alternatives_considered => optListVal b.alternatives_considered
  | .strengths => optListVal b.strengths
  | .weaknesses => optListVal b.weaknesses
  | .is_resubmission => .bool b.is_resubmission
  | .resubmission_rationale => optStrVal b.resubmission_rationale

/-! ### Inversion lemmas for the validation step -/

lemma model_validate_ok (d : ToolInput) (v : BlipSubmission)
    (h : model_validate d = Except.ok v) :
    coerceField coerceName Option.none d.name = Except.ok v.name ∧
    coerceField coerceQuadrant Option.none d.quadrant = Except.ok v.quadrant ∧
    coerceField coerceRing Option.none d.ring = Except.ok v.ring ∧
    coerceField coerceDescription Option.none d.description = Except.ok v.description ∧
    coerceField coerceListField Option.none d.client_references
      = Except.ok v.client_references ∧
    coerceField coerceShortStr Option.none d.submitter_name
      = Except.ok v.submitter_name ∧
    coerceField coerceShortStr Option.none d.submitter_contact
      = Except.ok v.submitter_contact ∧
    coerceField coerceShortStr Option.none d.why_now = Except.ok v.why_now ∧
    coerceField coerceListField Option.none d.alternatives_considered
      = Except.ok v.alternatives_considered ∧
    coerceField coerceListField Option.none d.strengths = Except.ok v.strengths ∧
    coerceField coerceListField Option.none d.weaknesses = Except.ok v.weaknesses ∧
    coerceField coerceBool false d.is_resubmission = Except.ok v.is_resubmission ∧
    coerceField coerceShortStr Option.none d.resubmission_rationale
      = Except.ok v.resubmission_rationale := by
  unfold model_validate at h
  cases h1 : coerceField coerceName Option.none d.name with
  | error e => simp [h1, Bind.bind, Except.bind, Functor.map, Except.map] at h
  | ok a1 =>
  cases h2 : coerceField coerceQuadrant Option.none d.quadrant with
  | error e => simp [h1, h2, Bind.bind, Except.bind, Functor.map, Except.map] at h
  | ok a2 =>
  cases h3 : coerceField coerceRing Option.none d.ring with
  | error e => simp [h1, h2, h3, Bind.bind, Except.bind, Functor.map, Except.map] at h
  | ok a3 =>
  cases h4 : coerceField coerceDescription Option.none d.description with
  | error e => simp [h1, h2, h3, h4, Bind.bind, Except.bind, Functor.map, Except.map] at h
  | ok a4 =>
  cases h5 : coerceField coerceListField Option.none d.client_references with
  | error e => simp [h1, h2, h3, h4, h5, Bind.bind, Except.bind, Functor.map, Except.map] at h
  | ok a5 =>
  cases h6 : coerceField coerceShortStr Option.none d.submitter_name with
  | error e => simp [h1, h2, h3, h4, h5, h6, Bind.bind, Except.bind, Functor.map, Except.map] at h
  | ok a6 =>
  cases h7 : coerceField coerceShortStr Option.none d.submitter_contact with
  | error e => simp [h1, h2, h3, h4, h5, h6, h7, Bind.bind, Except.bind, Functor.map, Except.map] at h
  | ok a7 =>
  cases h8 : coerceField coerceShortStr Option.none d.why_now with
  | error e => simp [h1, h2, h3, h4, h5, h6, h7, h8, Bind.bind, Except.bind, Functor.map, Except.map] at h
  | ok a8 =>
  cases h9 : coerceField coerceListField Option.none d.alternatives_considered with
  | error e => simp [h1, h2, h3, h4, h5, h6, h7, h8, h9, Bind.bind, Except.bind, Functor.map, Except.map] at h
  | ok a9 =>
  cases h10 : coerceField coerceListField Option.none d.strengths with
  | error e => simp [h1, h2, h3, h4, h5, h6, h7, h8, h9, h10, Bind.bind, Except.bind, Functor.map, Except.map] at h
  | ok a10 =>
  cases h11 : coerceField coerceListField Option.none d.weaknesses with
  | error e => simp [h1, h2, h3, h4, h5, h6, h7, h8, h9, h10, h11, Bind.bind, Except.bind, Functor.map, Except.map] at h
  | ok a11 =>
  cases h12 : coerceField coerceBool false d.is_resubmission with
  | error e => simp [h1, h2, h3, h4, h5, h6, h7, h8, h9, h10, h11, h12, Bind.bind, Except.bind, Functor.map, Except.map] at h
  | ok a12 =>
  cases h13 : coerceField coerceShortStr Option.none d.resubmission_rationale with
  | error e => simp [h1, h2, h3, h4, h5, h6, h7, h8, h9, h10, h11, h12, h13, Bind.bind, Except.bind, Functor.map, Except.map] at h
  | ok a13 =>
  simp only [h1, h2, h3, h4, h5, h6, h7, h8, h9, h10, h11, h12, h13,
    Bind.bind, Except.bind, Functor.map, Except.map, pure, Except.pure,
    Except.ok.injEq] at h
  subst h
  exact ⟨rfl, rfl, rfl, rfl, rfl, rfl, rfl, rfl, rfl, rfl, rfl, rfl, rfl⟩

/-! ### Claim theorems: extract-fields merge -/

/-- C1: a field present in the argument object with a `null` value
never overwrites a record field that already holds a non-null value —
the merge leaves it unchanged (null-skip invariant). -/
theorem C1_null_skip :
    ∀ (data : ToolInput) (blip blip' : BlipSubmission) (res : ToolResultData)
      (f : ArgField),
      _handle_extract_blip data blip = Except.ok (blip', res) →
      data.get f = some JValue.null →
      blip.argValue f ≠ PyValue.none →
      blip'.argValue f = blip.argValue f := by
  intro data blip blip' res f hok hnull _
  unfold _handle_extract_blip at hok
  cases hv : model_validate data with
  | error e => rw [hv] at hok; simp at hok
  | ok v =>
  rw [hv] at hok
  have hinv := model_validate_ok data v hv
  dsimp only at hok
  injection hok with hpair
  injection hpair with hb hres
  subst hb
  cases f
  case name =>
    have h1 := hinv.1
    simp only [ToolInput.get] at hnull
    rw [hnull] at h1
    simp only [coerceField, coerceName] at h1
    injection h1 with h1
    simp [BlipSubmission.argValue, ToolInput.get, mergeField, hnull, ← h1]
  case quadrant =>
    have h1 := hinv.2.1
    simp only [ToolInput.get] at hnull
    rw [hnull] at h1
    simp only [coerceField, coerceQuadrant] at h1
    injection h1 with h1
    simp [BlipSubmission.argValue, ToolInput.get, mergeField, hnull, ← h1]
  case ring =>
    have h1 := hinv.2.2.1
    simp only [ToolInput.get] at hnull
    rw [hnull] at h1
    simp only [coerceField, coerceRing] at h1
    injection h1 with h1
    simp [BlipSubmission.argValue, ToolInput.get, mergeField, hnull, ← h1]
  case description =>
    have h1 := hinv.2.2.2.1
    simp only [ToolInput.get] at hnull
    rw [hnull] at h1
    simp only [coerceField, coerceDescription] at h1
    injection h1 with h1
    simp [BlipSubmission.argValue, ToolInput.get, mergeField, hnull, ← h1]
  case client_references =>
    have h1 := hinv.2.2.2.2.1
    simp only [ToolInput.get] at hnull
    rw [hnull] at h1
    simp only [coerceField, coerceListField] at h1
    injection h1 with h1
    simp [BlipSubmission.argValue, ToolInput.get, mergeField, hnull, ← h1]
  case submitter_name =>
    have h1 := hinv.2.2.2.2.2.1
    simp only [ToolInput.get] at hnull
    rw [hnull] at h1
    simp only [coerceField, coerceShortStr] at h1
    injection h1 with h1
    simp [BlipSubmission.argValue, ToolInput.get, mergeField, hnull, ← h1]
  case submitter_contact =>
    have h1 := hinv.2.2.2.2.2.2.1
    simp only [ToolInput.get] at hnull
    rw [hnull] at h1
    simp only [coerceField, coerceShortStr] at h1
    injection h1 with h1
    simp [BlipSubmission.argValue, ToolInput.get, mergeField, hnull, ← h1]
  case why_now =>
    have h1 := hinv.2.2.2.2.2.2.2.1
    simp only [ToolInput.get] at hnull
    rw [hnull] at h1
    simp only [coerceField, coerceShortStr] at h1
    injection h1 with h1
    simp [BlipSubmission.argValue, ToolInput.get, mergeField, hnull, ← h1]
  case alternatives_considered =>
    have h1 := hinv.2.2.2.2.2.2.2.2.1
    simp only [ToolInput.get] at hnull
    rw [hnull] at h1
    simp only [coerceField, coerceListField] at h1
    injection h1 with h1
    simp [BlipSubmission.argValue, ToolInput.get, mergeField, hnull, ← h1]
  case strengths =>
    have h1 := hinv.2.2.2.2.2.2.2.2.2.1
    simp only [ToolInput.get] at hnull
    rw [hnull] at h1
    simp only [coerceField, coerceListField] at h1
    injection h1 with h1
    simp [BlipSubmission.argValue, ToolInput.get, mergeField, hnull, ← h1]
  case weaknesses =>
    have h1 := hinv.2.2.2.2.2.2.2.2.2.2.1
    simp only [ToolInput.get] at hnull
    rw [hnull] at h1
    simp only [coerceField, coerceListField] at h1
    injection h1 with h1
    simp [BlipSubmission.argValue, ToolInput.get, mergeField, hnull, ← h1]
  case is_resubmission =>
    have h1 := hinv.2.2.2.2.2.2.2.2.2.2.2.1
    simp only [ToolInput.get] at hnull
    rw [hnull] at h1
    simp only [coerceField, coerceBool] at h1
    cases h1
  case resubmission_rationale =>
    have h1 := hinv.2.2.2.2.2.2.2.2.2.2.2.2
    simp only [ToolInput.get] at hnull
    rw [hnull] at h1
    simp only [coerceField, coerceShortStr] at h1
    injection h1 with h1
    simp [BlipSubmission.argValue, ToolInput.get, mergeField, hnull, ← h1]

/-- C7 (code behaviour at the failing input): a field value that
cannot be coerced — `ring` set to the non-canonical label `"Banana"` —
makes the pydantic validation raise, aborting the whole merge: no
field of the same tool call (here a valid `name`) is merged.  This
contradicts the claim that the bad field alone is dropped. -/
theorem C7_uncoercible_field_aborts_merge :
    _handle_extract_blip
        { name := some (JValue.str "Docker"), ring := some (JValue.str "Banana") }
        {} = Except.error () ∧
    model_validate
        { name := some (JValue.str "Docker"), ring := some (JValue.str "Banana") }
      = Except.error () ∧
    coerceRing (JValue.str "Banana") = Except.error () :=
  ⟨rfl, rfl, rfl⟩

/-- Witness for C1: merging `{"ring": null}` into a record whose ring
is `Adopt` leaves the ring unchanged. -/
theorem C1_null_skip_witness :
    BlipSubmission.argValue
        { ring := some Ring.adopt,
          completeness_score := some (calculate_completeness { ring := some Ring.adopt }),
          quality_score := some (calculate_quality { ring := some Ring.adopt }) }
        ArgField.ring
      = BlipSubmission.argValue { ring := some Ring.adopt } ArgField.ring :=
  C1_null_skip { ring := some JValue.null } { ring := some Ring.adopt }
    { ring := some Ring.adopt,
      completeness_score := some (calculate_completeness { ring := some Ring.adopt }),
      quality_score := some (calculate_quality { ring := some Ring.adopt }) }
    (ToolResultData.extractResult
      (calculate_completeness { ring := some Ring.adopt })
      (calculate_quality { ring := some Ring.adopt })
      (get_missing_fields
        { ring := some Ring.adopt,
          completeness_score := some (calculate_completeness { ring := some Ring.adopt }),
          quality_score := some (calculate_quality { ring := some Ring.adopt }) })
      (get_ring_gaps
        { ring := some Ring.adopt,
          completeness_score := some (calculate_completeness { ring := some Ring.adopt }),
          quality_score := some (calculate_quality { ring := some Ring.adopt }) }))
    ArgField.ring (by rfl) rfl (by decide)

/-! ### Claim theorems: orchestrator rounds -/

lemma consumeStreamAux_no_tools (evs : List StreamEvent)
    (h : evs.all (fun e => !e.isToolStart) = true) :
    ∀ s, (consumeStreamAux s [] evs).2 = [] := by
  induction evs with
  | nil => intro s; rfl
  | cons e rest ih =>
      intro s
      simp only [List.all_cons, Bool.and_eq_true] at h
      cases e with
      | contentBlockStartToolUse id name =>
          simp [StreamEvent.isToolStart] at h
      | contentBlockStartOther => exact ih h.2 s
      | textDelta t => exact ih h.2 (s ++ t)
      | inputJsonDelta j => exact ih h.2 s

/-- The orchestrator yields only text fragments while streaming. -/
lemma textYields_shape (evs : List StreamEvent) :
    ∀ e ∈ textYields evs, ∃ t, e = YieldEvent.text_delta t := by
  intro e he
  obtain ⟨a, _, ha⟩ := List.mem_filterMap.mp he
  cases a <;> simp at ha
  exact ⟨_, ha.symm⟩

/-- C8: a turn whose stream opens zero tool calls yields the streamed
text fragments followed by exactly one terminal `done` event, and the
record is left exactly as it was. -/
theorem C8_no_tools_single_done :
    ∀ (parse : String → Option ToolInput) (history : List HistoricalBlip)
      (evs : List StreamEvent) (rest : List (List StreamEvent))
      (blip : BlipSubmission),
      evs.all (fun e => !e.isToolStart) = true →
      (runTurn parse history (evs :: rest) blip
          = ⟨textYields evs ++ [YieldEvent.done], blip, false⟩ ∧
       (textYields evs ++ [YieldEvent.done]).count YieldEvent.done = 1 ∧
       ∀ e ∈ textYields evs, ∃ t, e = YieldEvent.text_delta t) := by
  intro parse history evs rest blip h
  have htools : (consumeStream evs).2 = [] :=
    consumeStreamAux_no_tools evs h ""
  refine ⟨?_, ?_, textYields_shape evs⟩
  · simp [runTurn, processRound, htools]
  · have hnot : YieldEvent.done ∉ textYields evs := by
      intro hmem
      obtain ⟨t, ht⟩ := textYields_shape evs _ hmem
      cases ht
    rw [List.count_append, List.count_eq_zero.mpr hnot]
    rfl

/-- Witness for C8 at a concrete text-only turn. -/
theorem C8_no_tools_single_done_witness :
    (runTurn (fun _ => Option.none) [] [[StreamEvent.textDelta "Hello"]] {}
        = ⟨textYields [StreamEvent.textDelta "Hello"] ++ [YieldEvent.done], {}, false⟩ ∧
     (textYields [StreamEvent.textDelta "Hello"] ++ [YieldEvent.done]).count
        YieldEvent.done = 1 ∧
     ∀ e ∈ textYields [StreamEvent.textDelta "Hello"],
       ∃ t, e = YieldEvent.text_delta t) :=
  C8_no_tools_single_done (fun _ => Option.none) [] [StreamEvent.textDelta "Hello"]
    [] {} (by decide)

/-- The concrete round used to refute C6: an unknown tool call opened
alongside a valid `check_radar_history` call. -/
def c6events : List StreamEvent :=
  [.contentBlockStartToolUse "tool_3" "bogus_tool",
   .contentBlockStartToolUse "tool_4" "check_radar_history"]

/-- C6 counterexample: in a round with two tool calls — one with an
unknown name, one valid — the orchestrator completes the round without
raising, but yields an outcome event only for the valid call: the
whole yielded-event stream contains exactly one tool outcome and no
event for the unknown-named call, refuting the claim that an outcome
event is emitted for both calls. -/
theorem C6_counterexample :
    (consumeStream c6events).2.length = 2 ∧
    (processRound (fun _ => Option.none) [] c6events {}).isRaised = false ∧
    (processRound (fun _ => Option.none) [] c6events {}).yields
      = [YieldEvent.tool_result "check_radar_history"
          (ToolResultData.historyResult false [])] ∧
    ((processRound (fun _ => Option.none) [] c6events {}).yields.countP
      YieldEvent.isToolResult) = 1 := by
  refine ⟨rfl, rfl, rfl, rfl⟩

/-- C6 amended: in a round containing an unknown-named call and a
valid `check_radar_history` call, the round completes without raising
and both calls receive a tool-result entry in the appended transcript
message — the unknown one error-shaped — but a stream outcome event is
yielded only for the valid call. -/
theorem C6_amended_unknown_tool_round :
    ∀ (parse : String → Option ToolInput) (history : List HistoricalBlip)
      (events : List StreamEvent) (blip : BlipSubmission)
      (txt i1 n b1 i2 b2 nm : String),
      consumeStream events = (txt, [⟨i1, n, b1⟩, ⟨i2, "check_radar_history", b2⟩]) →
      n ≠ "check_radar_history" →
      n ≠ "extract_blip_data" →
      inputGetName (parseToolInput parse b2) = Except.ok nm →
      processRound parse history events blip =
        RoundOutcome.continues
          (textYields events ++
            [YieldEvent.tool_result "check_radar_history"
              (_handle_check_history history nm)])
          [⟨"assistant",
            (if txt ≠ "" then [ContentBlock.text txt] else []) ++
            [ContentBlock.tool_use i1 n (parseToolInput parse b1),
             ContentBlock.tool_use i2 "check_radar_history"
               (parseToolInput parse b2)]⟩,
           ⟨"user",
            [ContentBlock.tool_result_block i1
               (ToolResultData.unknownTool ("Unknown tool: " ++ n)),
             ContentBlock.tool_result_block i2
               (_handle_check_history history nm)]⟩]
          blip := by
  intro parse history events blip txt i1 n b1 i2 b2 nm hcons hn1 hn2 hname
  unfold processRound
  rw [hcons]
  simp only [List.cons_ne_self, if_false, reduceCtorEq, ite_false]
  simp [dispatchTools, hn1, hn2, hname]

/-- Witness for C6's amended theorem at the concrete round of the
counterexample. -/
theorem C6_amended_unknown_tool_round_witness :
    processRound (fun _ => Option.none) [] c6events {} =
      RoundOutcome.continues
        (textYields c6events ++
          [YieldEvent.tool_result "check_radar_history"
            (_handle_check_history [] "")])
        [⟨"assistant",
          (if ("" : String) ≠ "" then [ContentBlock.text ""] else []) ++
          [ContentBlock.tool_use "tool_3" "bogus_tool"
             (parseToolInput (fun _ => Option.none) ""),
           ContentBlock.tool_use "tool_4" "check_radar_history"
             (parseToolInput (fun _ => Option.none) "")]⟩,
         ⟨"user",
          [ContentBlock.tool_result_block "tool_3"
             (ToolResultData.unknownTool ("Unknown tool: " ++ "bogus_tool")),
           ContentBlock.tool_result_block "tool_4"
             (_handle_check_history [] "")]⟩]
        {} :=
  C6_amended_unknown_tool_round (fun _ => Option.none) [] c6events {}
    "" "tool_3" "bogus_tool" "" "tool_4" "" "" rfl (by decide) (by decide) rfl

lemma step_ite (c : Bool) (a w : ℚ) :
    (if c = true then a + w else a) = a + (if c = true then w else 0) := by
  cases c <;> simp

/-- Completeness as an explicit eleven-term sum. -/
lemma calculate_completeness_expand (bb : BlipSubmission) :
    calculate_completeness bb
      = 0 + (if _field_is_filled (bb.pyGetattr "name") then (10:ℚ) else 0)
          + (if _field_is_filled (bb.pyGetattr "quadrant") then (5:ℚ) else 0)
          + (if _field_is_filled (bb.pyGetattr "ring") then (5:ℚ) else 0)
          + (if _field_is_filled (bb.pyGetattr "description") then (25:ℚ) else 0)
          + (if _field_is_filled (bb.pyGetattr "submitter_name") then (5:ℚ) else 0)
          + (if _field_is_filled (bb.pyGetattr "submitter_contact") then (5:ℚ) else 0)
          + (if _field_is_filled (bb.pyGetattr "why_now") then (15:ℚ) else 0)
          + (if _field_is_filled (bb.pyGetattr "client_references") then (10:ℚ) else 0)
          + (if _field_is_filled (bb.pyGetattr "alternatives_considered") then (10:ℚ) else 0)
          + (if _field_is_filled (bb.pyGetattr "strengths") then (5:ℚ) else 0)
          + (if _field_is_filled (bb.pyGetattr "weaknesses") then (5:ℚ) else 0) := by
  simp only [calculate_completeness, FIELD_WEIGHTS, List.foldl_cons, List.foldl_nil,
    step_ite]

/-- The record produced by merging `{"name": ""}` into `blip`. -/
def mergedEmptyName (blip : BlipSubmission) : BlipSubmission :=
  { blip with name := some "" }

/-- The record stored back after the `{"name": ""}` merge, with the
recomputed scores. -/
def finalEmptyName (blip : BlipSubmission) : BlipSubmission :=
  { blip with
      name := some ""
      completeness_score := some (calculate_completeness (mergedEmptyName blip))
      quality_score := some (calculate_quality (mergedEmptyName blip)) }

/-- The record stored back after the `{"name": null}` merge (no field
overwritten, scores recomputed). -/
def finalNullName (blip : BlipSubmission) : BlipSubmission :=
  { blip with
      completeness_score := some (calculate_completeness blip)
      quality_score := some (calculate_quality blip) }

/-- C10: during the merge only `null` argument values are skipped: a
field explicitly set to the empty string is non-null and therefore
overwrites a previously filled record field with `""`, which the
scoring engine counts as unfilled — so an empty-string payload erases
that field's completeness contribution, while a `null` payload leaves
both the field and the completeness unchanged. -/
theorem C10_empty_string_overwrites :
    ∀ (blip blip' blip'' : BlipSubmission) (res res' : ToolResultData),
      _field_is_filled (blip.pyGetattr "name") = true →
      _handle_extract_blip { name := some (JValue.str "") } blip
        = Except.ok (blip', res) →
      _handle_extract_blip { name := some JValue.null } blip
        = Except.ok (blip'', res') →
      blip'.name = some "" ∧
      _field_is_filled (blip'.pyGetattr "name") = false ∧
      calculate_completeness blip' = calculate_completeness blip - 10 ∧
      blip''.name = blip.name ∧
      calculate_completeness blip'' = calculate_completeness blip := by
  intro blip blip' blip'' res res' hfill hok1 hok2
  have he1 : _handle_extract_blip { name := some (JValue.str "") } blip
      = Except.ok (finalEmptyName blip,
          ToolResultData.extractResult
            (calculate_completeness (mergedEmptyName blip))
            (calculate_quality (mergedEmptyName blip))
            (get_missing_fields (finalEmptyName blip))
            (get_ring_gaps (finalEmptyName blip))) := rfl
  have he2 : _handle_extract_blip { name := some JValue.null } blip
      = Except.ok (finalNullName blip,
          ToolResultData.extractResult
            (calculate_completeness blip) (calculate_quality blip)
            (get_missing_fields (finalNullName blip))
            (get_ring_gaps (finalNullName blip))) := rfl
  rw [he1] at hok1
  rw [he2] at hok2
  injection hok1 with hp1
  injection hp1 with hb1 hres1
  injection hok2 with hp2
  injection hp2 with hb2 hres2
  subst hb1
  subst hb2
  refine ⟨rfl, rfl, ?_, rfl, rfl⟩
  rw [calculate_completeness_expand, calculate_completeness_expand]
  simp only [BlipSubmission.pyGetattr, finalEmptyName, mergedEmptyName] at hfill ⊢
  simp [hfill, show _field_is_filled (optStrVal (some "")) = false from rfl]
  ring

/-- Witness for C10 at a record whose name is `"Docker"`. -/
theorem C10_empty_string_overwrites_witness :
    (finalEmptyName { name := some "Docker" }).name = some "" ∧
    _field_is_filled
      ((finalEmptyName { name := some "Docker" }).pyGetattr "name") = false ∧
    calculate_completeness (finalEmptyName { name := some "Docker" })
      = calculate_completeness { name := some "Docker" } - 10 ∧
    (finalNullName { name := some "Docker" }).name
      = ({ name := some "Docker" } : BlipSubmission).name ∧
    calculate_completeness (finalNullName { name := some "Docker" })
      = calculate_completeness { name := some "Docker" } :=
  C10_empty_string_overwrites { name := some "Docker" }
    (finalEmptyName { name := some "Docker" })
    (finalNullName { name := some "Docker" }) _ _ (by decide) rfl rfl

end RadarTool
